import Mathlib

/-!
Verification of `grid_display.py` (class `DecodeSecretMessage`).

The development shallowly embeds the script's pipeline:
  * the `url` property setter (URL validation),
  * `verify_public_url` (fetch + `raise_for_status`),
  * `get_data` (HTML-table extraction into a triple list),
  * `display_grid` (dense grid fill and row-by-row printing),
  * the driver `Main` (exception handling and messages).

Python strings are `String`, Python `int` values are `Int`, Python lists are
`List`, a raised-vs-returned outcome is `Except`/`Option`.  Network and HTML
parsing are abstracted at their observable boundary: a fetch outcome is either
a raised request exception or a response with a status code and the (optional)
first `<table>` of the body, the table itself being the list of its rows,
each row the list of its cells' text contents.
-/

namespace GridDisplay

instance {ε α : Type} [DecidableEq ε] [DecidableEq α] : DecidableEq (Except ε α) := fun a b =>
  match a, b with
  | .ok x, .ok y => decidable_of_iff (x = y) (by simp)
  | .error e, .error f => decidable_of_iff (e = f) (by simp)
  | .ok _, .error _ => isFalse (fun h => Except.noConfusion h)
  | .error _, .ok _ => isFalse (fun h => Except.noConfusion h)

/-! ### Python string primitives -/

/-- The ASCII whitespace characters recognised by Python's `str.isspace` and
`str.strip` (the Unicode extras are not needed for any input considered
here). -/
def isPyWs (c : Char) : Bool :=
  c = ' ' || c = '\t' || c = '\n' || c = '\x0d' || c = '\x0b' || c = '\x0c'

/-- Python `str.isspace()`: `true` iff the string is non-empty and every
character is whitespace.  In particular `"".isspace()` is `false`. -/
def pyIsSpace (s : String) : Bool :=
  !s.data.isEmpty && s.data.all isPyWs

/-- Python `str.strip()`: drop leading and trailing whitespace. -/
def pyStrip (s : String) : String :=
  String.mk (((s.data.dropWhile isPyWs).reverse.dropWhile isPyWs).reverse)

/-! ### Python `int(...)` -/

/-- Digits of a decimal numeral, most significant first, accumulated. -/
def decAux (acc : Nat) : List Char → Option Nat
  | [] => some acc
  | c :: cs => if c.isDigit then decAux (acc * 10 + (c.toNat - '0'.toNat)) cs else none

/-- A non-empty ASCII digit string to its value, `none` otherwise. -/
def decDigits : List Char → Option Nat
  | [] => none
  | cs => decAux 0 cs

/-- Python `int(s)` on text: strips whitespace, then an optional sign followed
by decimal digits; anything else raises `ValueError` (`none` here).  (Python
additionally accepts underscores between digits and non-ASCII digits; no input
considered in this development uses them.) -/
def pyInt (s : String) : Option Int :=
  match (pyStrip s).data with
  | '+' :: rest => (decDigits rest).map Int.ofNat
  | '-' :: rest => (decDigits rest).map (fun n => -(n : Int))
  | cs => (decDigits cs).map Int.ofNat

/-! ### `urllib.parse.urlparse`, restricted to the two fields the script
reads (`scheme` and `netloc`) -/

/-- Characters allowed after the first letter of a URL scheme. -/
def isSchemeChar (c : Char) : Bool :=
  c.isAlphanum || c = '+' || c = '-' || c = '.'

/-- The `scheme`/`netloc` pair of a parsed URL. -/
structure ParsedUrl where
  scheme : String
  netloc : String
deriving DecidableEq, Repr

/-- Split off the scheme as `urlparse` does: the text before the first `:`
counts as the scheme when it is non-empty, starts with a letter and consists
of scheme characters; it is lower-cased.  Otherwise the scheme is empty and
the whole input remains. -/
def splitScheme (s : String) : String × String :=
  let pre := s.data.takeWhile (fun c => c ≠ ':')
  match s.data.dropWhile (fun c => c ≠ ':') with
  | ':' :: rest =>
      if pre ≠ [] ∧ (pre.headD 'x').isAlpha ∧ pre.all isSchemeChar then
        (String.mk (pre.map Char.toLower), String.mk rest)
      else ("", s)
  | _ => ("", s)

/-- Extract the network location: present only when the remainder starts with
`//`, and runs until the next `/`, `?` or `#`. -/
def netlocOf (rest : String) : String :=
  match rest.data with
  | '/' :: '/' :: cs =>
      String.mk (cs.takeWhile (fun c => c ≠ '/' ∧ c ≠ '?' ∧ c ≠ '#'))
  | _ => ""

/-- `urlparse(url)`, keeping the `scheme` and `netloc` components. -/
def urlparse (s : String) : ParsedUrl :=
  let (sch, rest) := splitScheme s
  ⟨sch, netlocOf rest⟩

/-! ### The `url` property setter -/

/-- A Python value passed to the setter: a `str`, or anything else. -/
inductive PyValue where
  | str (s : String)
  | other
deriving DecidableEq, Repr

/-- An exception raised by the setter, with its message. -/
inductive UrlErr where
  | typeErr (msg : String)
  | valueErr (msg : String)
deriving DecidableEq, Repr

/-- The `url.setter` of `DecodeSecretMessage`:
`TypeError` for a non-string, `ValueError('URL cannot be empty')` when
`url.isspace()`, `ValueError('Invalid URL. ...')` when the parsed scheme is
not `https` or the netloc is not `docs.google.com`; otherwise the URL is
accepted and stored. -/
def url_setter (v : PyValue) : Except UrlErr String :=
  match v with
  | .other => .error (.typeErr "URL must be a string")
  | .str s =>
      if pyIsSpace s then .error (.valueErr "URL cannot be empty")
      else
        if (urlparse s).scheme ≠ "https" ∨ (urlparse s).netloc ≠ "docs.google.com" then
          .error (.valueErr "Invalid URL. Please provide a valid Google Doc URL.")
        else .ok s

/-! ### `get_data`: table rows to the triple list -/

/-- One parsed `(x, y, char)` record, as appended to `grid_data` and stored in
the `x`/`y`/`char` columns of the DataFrame. -/
structure Triple where
  x : Int
  y : Int
  char : String
deriving DecidableEq, Repr

/-- Outcome of the body of the row loop on one row's cell texts. -/
inductive RowResult where
  | tooFew
  | parseErr
  | ok (t : Triple)
deriving DecidableEq, Repr

/-- The body of `get_data`'s row loop: rows with fewer than three cells are
passed over silently; otherwise `x = int(cells[0].text.strip())`,
`y = int(cells[2].text.strip())`, `char = cells[1].text.strip()`, and a
`ValueError` from either `int` call skips the row with a diagnostic. -/
def parseRowData (cells : List String) : RowResult :=
  if 3 ≤ cells.length then
    match pyInt (pyStrip (cells.getD 0 "")), pyInt (pyStrip (cells.getD 2 "")) with
    | some x, some y => .ok ⟨x, y, pyStrip (cells.getD 1 "")⟩
    | _, _ => .parseErr
  else .tooFew

/-- The row loop of `get_data` over the given rows, returning the printed
diagnostics and the accumulated `grid_data`, both in row order. -/
def parseRowsAux : List (List String) → List String × List Triple
  | [] => ([], [])
  | r :: rs =>
      let (ms, ts) := parseRowsAux rs
      match parseRowData r with
      | .ok t => (ms, t :: ts)
      | .parseErr => ("Error in parsing coordinates or character data." :: ms, ts)
      | .tooFew => (ms, ts)

/-- A fetched document seen by `get_data`: `none` models `self.response` being
unset; `some none` a response whose markup has no `<table>`; `some (some rows)`
a response whose first table has the given rows (each row the list of its
cells' text).  `get_data` returns the printed messages and the resulting
`self.grid` (`none` when the DataFrame was never built, `some ts` for a
DataFrame holding the triples `ts`).  The header row `rows[0]` is skipped by
the `rows[1:]` slice. -/
def get_data (doc : Option (Option (List (List String)))) :
    List String × Option (List Triple) :=
  match doc with
  | none => (["No response found."], none)
  | some none => (["No table found in the document."], none)
  | some (some rows) =>
      let (ms, ts) := parseRowsAux (rows.drop 1)
      (ms, some ts)

/-! ### Spec-side row reading (for the refinement statements)

`specRowTriple` is written from the specification's words: a row with at
least three cells yields a triple whose x-coordinate is the integer value of
the trimmed first cell, whose character is the trimmed second cell and whose
y-coordinate is the integer value of the trimmed third cell; a row whose
coordinate cells do not both parse as integers yields nothing. -/

/-- Spec-side reading of one row (see section comment). -/
def specRowTriple (cells : List String) : Option Triple :=
  if 3 ≤ cells.length then
    match pyInt (pyStrip (cells.getD 0 "")), pyInt (pyStrip (cells.getD 2 "")) with
    | some x, some y => some ⟨x, y, pyStrip (cells.getD 1 "")⟩
    | _, _ => none
  else none

/-- Spec-side diagnostic for one row: a row with at least three cells whose
coordinate cells do not both parse as integers is skipped with one logged
message. -/
def rowDiag (cells : List String) : Option String :=
  if 3 ≤ cells.length then
    match pyInt (pyStrip (cells.getD 0 "")), pyInt (pyStrip (cells.getD 2 "")) with
    | some _, some _ => none
    | _, _ => some "Error in parsing coordinates or character data."
  else none

/-! ### `display_grid`: dense fill and printing -/

/-- A Python exception escaping `display_grid`: `nanRange` is the `TypeError`
from `range(nan + 1)` when `.max()` of an empty column returned NaN;
`indexError` is an `IndexError` from `grid[y][x]`. -/
inductive PyError where
  | nanRange
  | indexError
deriving DecidableEq, Repr

/-- Python list indexing: a non-negative index must be below the length, a
negative index `i` addresses position `len + i`; anything else raises
`IndexError`. -/
def pyIndex (n : Nat) (i : Int) : Option Nat :=
  if 0 ≤ i ∧ i < (n : Int) then some i.toNat
  else if -(n : Int) ≤ i ∧ i < 0 then some (i + n).toNat
  else none

/-- Python `l[i] = a` on a list value. -/
def pySetList {α : Type} (l : List α) (i : Int) (a : α) : Option (List α) :=
  (pyIndex l.length i).map (fun j => l.set j a)

/-- Python `grid[y][x] = char` on a list of rows. -/
def pySetCell (g : List (List String)) (y x : Int) (c : String) :
    Option (List (List String)) :=
  match pyIndex g.length y with
  | none => none
  | some j =>
      match pySetList (g.getD j []) x c with
      | none => none
      | some row => some (g.set j row)

/-- The fill loop of `display_grid`: `grid[y][x] = char` for each triple in
DataFrame (that is, parse) order. -/
def fillGrid : List (List String) → List Triple → Option (List (List String))
  | g, [] => some g
  | g, t :: ts =>
      match pySetCell g t.y t.x t.char with
      | some g1 => fillGrid g1 ts
      | none => none

/-- Pandas `.max()` of a column: `none` (NaN) on an empty column, otherwise
the maximum of its values. -/
def colMax : List Int → Option Int
  | [] => none
  | a :: as =>
      some (match colMax as with
            | none => a
            | some m => max a m)

/-- `[[" " for _ in range(cols)] for _ in range(rows)]`. -/
def mkGrid (rows cols : Nat) : List (List String) :=
  List.replicate rows (List.replicate cols " ")

/-- The grid-building part of `display_grid` on the triples of `self.grid`:
`max_x`/`max_y` from the columns, an all-space grid of
`max_y + 1` rows by `max_x + 1` columns (`range` of a non-positive bound is
empty, hence `Int.toNat`), then the fill loop. -/
def renderGrid (l : List Triple) : Except PyError (List (List String)) :=
  match colMax (l.map (·.x)), colMax (l.map (·.y)) with
  | some mx, some my =>
      match fillGrid (mkGrid (my + 1).toNat (mx + 1).toNat) l with
      | some g => .ok g
      | none => .error .indexError
  | _, _ => .error .nanRange

/-- `display_grid`'s printed grid lines: for `y` in
`range(max_y, -1, -1)`, print `"".join(grid[y])`. -/
def display_grid (l : List Triple) : Except PyError (List String) :=
  match colMax (l.map (·.y)), renderGrid l with
  | some my, .ok g =>
      .ok (((List.range (my + 1).toNat).reverse).map (fun y => String.join (g.getD y [])))
  | _, .error e => .error e
  | none, .ok _ => .error .nanRange

/-- What one call of the display step produces: diagnostic prints, printed
grid lines, and an escaping Python exception if any. -/
structure DispOut where
  msgs : List String
  gridLines : List String
  err : Option PyError
deriving DecidableEq, Repr

/-- Run `display_grid`'s rendering on a non-`None` `self.grid`, after the
prints `m` already made. -/
def renderOut (m : List String) (l : List Triple) : DispOut :=
  match display_grid l with
  | .ok lines => ⟨m, lines, none⟩
  | .error e => ⟨m, [], some e⟩

/-- The body of `display_grid` as a method: when `self.grid is None` it first
calls `get_data` again; a grid still `None` afterwards prints
`"No data to display."` and returns; otherwise the grid is rendered. -/
def display_from (gridState : Option (List Triple))
    (doc : Option (Option (List (List String)))) : DispOut :=
  match gridState with
  | some l => renderOut [] l
  | none =>
      let (m, g2) := get_data doc
      match g2 with
      | none => ⟨m ++ ["No data to display."], [], none⟩
      | some l => renderOut m l

/-- `get_data()` followed by `display_grid()`, as `Main` invokes them. -/
def parse_and_display (doc : Option (Option (List (List String)))) : DispOut :=
  let (m1, g1) := get_data doc
  let d := display_from g1 doc
  ⟨m1 ++ d.msgs, d.gridLines, d.err⟩

/-! ### `verify_public_url` and the driver `Main` -/

/-- The outcome of `requests.get(url)`: a raised `RequestException`
(connection failure, timeout), or a response carrying an HTTP status code and
the optional first table of its body. -/
inductive FetchOutcome where
  | exn
  | response (status : Nat) (table : Option (List (List String)))
deriving DecidableEq, Repr

/-- `response.raise_for_status()` raises `HTTPError` exactly for status codes
in `[400, 600)`. -/
def raiseForStatusFails (status : Nat) : Bool :=
  400 ≤ status && status < 600

/-- `verify_public_url`: `requests.get` and `raise_for_status` inside
`try/except RequestException`; on an exception prints the access-error
message and returns `False`, otherwise returns `True`.  (The exception text
interpolated into the message is abstracted.) -/
def verify_public_url (f : FetchOutcome) : Bool × List String :=
  match f with
  | .exn => (false, ["Error accessing the URL: <exception>"])
  | .response st _ =>
      if raiseForStatusFails st then (false, ["Error accessing the URL: <exception>"])
      else (true, [])

/-- A fetch that `verify_public_url` treats as failed. -/
def fetchFails (f : FetchOutcome) : Bool :=
  match f with
  | .exn => true
  | .response st _ => raiseForStatusFails st

/-- Everything `Main` prints: diagnostics and grid lines. -/
structure MainOut where
  msgs : List String
  gridLines : List String
deriving DecidableEq, Repr

/-- The driver `Main` on a given URL value and fetch outcome.  The
constructor (hence the `url` setter) runs before the `try` block, so a setter
exception escapes (`Except.error`).  Inside the `try`: a failed
`verify_public_url` raises `ValueError`, caught by the `except ValueError`
arm which prints its two messages; otherwise `get_data` and `display_grid`
run, and a Python exception escaping them is caught by the generic
`except Exception` arm. -/
def main_run (v : PyValue) (f : FetchOutcome) : Except UrlErr MainOut :=
  match url_setter v with
  | .error e => .error e
  | .ok _ =>
      let (okF, m0) := verify_public_url f
      if okF then
        let doc : Option (Option (List (List String))) :=
          match f with
          | .exn => none
          | .response _ t => some t
        let d := parse_and_display doc
        match d.err with
        | some _ =>
            .ok ⟨m0 ++ d.msgs ++
              ["An unexpected error occurred while processing the document.",
               "Details: <exception>"], d.gridLines⟩
        | none => .ok ⟨m0 ++ d.msgs, d.gridLines⟩
      else
        .ok ⟨m0 ++
          ["Error: Failed to access the URL. Please check the URL and make sure it is public.",
           "This might be due to a private or incorrect URL. Ensure the document is publicly accessible."], []⟩

/-! ### Declarative description of the rendered grid

These definitions restate the renderer's outcome in the specification's
terms: the grid bounds are the maximum observed coordinates, and the cell at
`(x, y)` holds the character of the last triple naming that coordinate, a
space when no triple does. -/

/-- Maximum of a list of naturals, `0` for the empty list. -/
def natMax : List Nat → Nat
  | [] => 0
  | a :: as => max a (natMax as)

/-- Maximum observed x-coordinate (coordinates are non-negative here). -/
def maxXN (l : List Triple) : Nat := natMax (l.map (fun t => t.x.toNat))

/-- Maximum observed y-coordinate (coordinates are non-negative here). -/
def maxYN (l : List Triple) : Nat := natMax (l.map (fun t => t.y.toNat))

/-- The last triple in list order whose coordinates are `(x, y)`. -/
def lastMatch : List Triple → Nat → Nat → Option Triple
  | [], _, _ => none
  | t :: ts, x, y =>
      match lastMatch ts x y with
      | some u => some u
      | none => if t.x = (x : Int) ∧ t.y = (y : Int) then some t else none

/-- Declarative content of the cell at `(x, y)`: the last matching triple's
character, else a space. -/
def cellChar (l : List Triple) (x y : Nat) : String :=
  match lastMatch l x y with
  | some t => t.char
  | none => " "

/-- The grid the specification describes: `maxY + 1` rows of `maxX + 1`
cells, row `y` at index `y`, cell `x` holding `cellChar`. -/
def specGrid (l : List Triple) : List (List String) :=
  (List.range (maxYN l + 1)).map
    (fun y => (List.range (maxXN l + 1)).map (fun x => cellChar l x y))

/-- The printed lines the specification describes: `y` descending from
`maxY` to `0`, each line the concatenation of its row in ascending `x`. -/
def specLines (l : List Triple) : List String :=
  ((List.range (maxYN l + 1)).reverse).map
    (fun y => String.join ((List.range (maxXN l + 1)).map (fun x => cellChar l x y)))

/-- Cell lookup on a list-of-rows grid, with the renderer's defaults. -/
def gget (g : List (List String)) (y x : Nat) : String :=
  (g.getD y []).getD x " "

/-! ### Supporting lemmas -/

/-- The row loop is exactly `filterMap` of the two spec-side row readers over
the given rows. -/
theorem parseRowsAux_eq (rs : List (List String)) :
    parseRowsAux rs = (rs.filterMap rowDiag, rs.filterMap specRowTriple) := by
  induction rs with
  | nil => rfl
  | cons r rs ih =>
      simp only [parseRowsAux, ih, List.filterMap_cons]
      unfold parseRowData rowDiag specRowTriple
      by_cases h3 : 3 ≤ r.length
      · simp only [if_pos h3]
        cases pyInt (pyStrip (r.getD 0 "")) <;> cases pyInt (pyStrip (r.getD 2 "")) <;> rfl
      · simp [h3]

/-- `get_data` on a fetched table: the triple list is the ordered
`filterMap` of `specRowTriple` over the data rows (header dropped), and the
diagnostics are those of the rows that failed. -/
theorem get_data_eq (rows : List (List String)) :
    get_data (some (some rows)) =
      ((rows.drop 1).filterMap rowDiag, some ((rows.drop 1).filterMap specRowTriple)) := by
  simp [get_data, parseRowsAux_eq]

theorem natMax_le_of_mem {a : Nat} {ns : List Nat} (h : a ∈ ns) : a ≤ natMax ns := by
  induction ns with
  | nil => cases h
  | cons b bs ih =>
      rcases List.mem_cons.1 h with rfl | h'
      · exact Nat.le_max_left _ _
      · exact Nat.le_trans (ih h') (Nat.le_max_right _ _)

theorem colMax_eq_natMax (xs : List Int) (hne : xs ≠ []) (hnn : ∀ a ∈ xs, 0 ≤ a) :
    colMax xs = some ((natMax (xs.map Int.toNat) : Nat) : Int) := by
  induction xs with
  | nil => cases hne rfl
  | cons a as ih =>
      have ha : 0 ≤ a := hnn a (List.mem_cons_self ..)
      cases as with
      | nil =>
          simp only [colMax, natMax, List.map_cons, List.map_nil]
          rw [Nat.max_eq_left (Nat.zero_le _)]
          simp [Int.toNat_of_nonneg ha]
      | cons b bs =>
          have ihs := ih (by simp) (fun x hx => hnn x (List.mem_cons_of_mem _ hx))
          have hstep : colMax (a :: b :: bs) =
              some (match colMax (b :: bs) with | none => a | some m => max a m) := rfl
          rw [hstep, ihs]
          simp only [List.map_cons, natMax]
          congr 1
          push_cast
          rw [Int.toNat_of_nonneg ha]

theorem pyIndex_of_nonneg {n : Nat} {i : Int} (h0 : 0 ≤ i) (h1 : i < (n : Int)) :
    pyIndex n i = some i.toNat := by
  unfold pyIndex
  rw [if_pos ⟨h0, h1⟩]

theorem getD_set_self {α : Type} (l : List α) (j : Nat) (a d : α) (h : j < l.length) :
    (l.set j a).getD j d = a := by
  rw [List.getD_eq_getElem _ _ (by simpa using h)]
  exact List.getElem_set_self _

theorem getD_set_ne {α : Type} (l : List α) (i j : Nat) (a d : α) (h : j ≠ i) :
    (l.set j a).getD i d = l.getD i d := by
  by_cases hi : i < l.length
  · rw [List.getD_eq_getElem _ _ (by simpa using hi), List.getD_eq_getElem _ _ hi]
    exact List.getElem_set_ne h _
  · rw [List.getD_eq_default _ _ (by simpa using Nat.le_of_not_lt hi),
        List.getD_eq_default _ _ (Nat.le_of_not_lt hi)]

theorem gget_mkGrid (R C y x : Nat) (hy : y < R) (hx : x < C) :
    gget (mkGrid R C) y x = " " := by
  unfold gget mkGrid
  have h1 : (List.replicate R (List.replicate C " ")).getD y [] = List.replicate C " " := by
    rw [List.getD_eq_getElem _ _ (by simpa using hy)]
    exact List.getElem_replicate ..
  rw [h1, List.getD_eq_getElem _ _ (by simpa using hx)]
  exact List.getElem_replicate ..

theorem pySetCell_ok {g : List (List String)} {R C : Nat}
    (hlen : g.length = R) (hrow : ∀ row ∈ g, row.length = C)
    {ty tx : Int} (hy0 : 0 ≤ ty) (hyR : ty < (R : Int)) (hx0 : 0 ≤ tx) (hxC : tx < (C : Int))
    (c : String) :
    ∃ g1, pySetCell g ty tx c = some g1 ∧ g1.length = R ∧ (∀ row ∈ g1, row.length = C) ∧
      ∀ y x, y < R → x < C →
        gget g1 y x = if y = ty.toNat ∧ x = tx.toNat then c else gget g y x := by
  have hjlen : ty.toNat < g.length := by omega
  have hrowmem : g.getD ty.toNat [] ∈ g := by
    rw [List.getD_eq_getElem _ _ hjlen]
    exact List.getElem_mem _
  have hrowlen : (g.getD ty.toNat []).length = C := hrow _ hrowmem
  have hxlen : tx.toNat < (g.getD ty.toNat []).length := by omega
  have hpy : pyIndex g.length ty = some ty.toNat := pyIndex_of_nonneg hy0 (by omega)
  have hpx : pyIndex (g.getD ty.toNat []).length tx = some tx.toNat :=
    pyIndex_of_nonneg hx0 (by omega)
  refine ⟨g.set ty.toNat ((g.getD ty.toNat []).set tx.toNat c), ?_, ?_, ?_, ?_⟩
  · simp only [pySetCell, pySetList, hpy, hpx, Option.map_some']
  · rw [List.length_set]; exact hlen
  · intro row hmem
    rcases List.mem_or_eq_of_mem_set hmem with h' | rfl
    · exact hrow _ h'
    · rw [List.length_set]; exact hrowlen
  · intro y x hy' hx'
    by_cases hy : y = ty.toNat
    · subst hy
      have hout : (g.set ty.toNat ((g.getD ty.toNat []).set tx.toNat c)).getD ty.toNat [] =
          (g.getD ty.toNat []).set tx.toNat c := getD_set_self _ _ _ _ hjlen
      unfold gget
      rw [hout]
      by_cases hx : x = tx.toNat
      · subst hx
        rw [getD_set_self _ _ _ _ hxlen, if_pos ⟨rfl, rfl⟩]
      · rw [getD_set_ne _ _ _ _ _ (fun hh => hx hh.symm),
            if_neg (fun hc => hx hc.2)]
    · unfold gget
      rw [getD_set_ne _ _ _ _ _ (fun hh => hy hh.symm), if_neg (fun hc => hy hc.1)]

theorem fillGrid_ok (l : List Triple) :
    ∀ (g : List (List String)) (R C : Nat),
      g.length = R → (∀ row ∈ g, row.length = C) →
      (∀ t ∈ l, 0 ≤ t.x ∧ t.x < (C : Int) ∧ 0 ≤ t.y ∧ t.y < (R : Int)) →
      ∃ g1, fillGrid g l = some g1 ∧ g1.length = R ∧ (∀ row ∈ g1, row.length = C) ∧
        ∀ y x, y < R → x < C →
          gget g1 y x =
            match lastMatch l x y with
            | some t => t.char
            | none => gget g y x := by
  induction l with
  | nil =>
      intro g R C hlen hrow _
      exact ⟨g, rfl, hlen, hrow, fun y x _ _ => rfl⟩
  | cons t ts ih =>
      intro g R C hlen hrow hb
      have ht := hb t (List.mem_cons_self ..)
      have hts := fun u hu => hb u (List.mem_cons_of_mem _ hu)
      obtain ⟨g1, hset, hlen1, hrow1, hlook1⟩ :=
        pySetCell_ok hlen hrow ht.2.2.1 ht.2.2.2 ht.1 ht.2.1 t.char
      obtain ⟨g2, hfill, hlen2, hrow2, hlook2⟩ := ih g1 R C hlen1 hrow1 hts
      refine ⟨g2, ?_, hlen2, hrow2, ?_⟩
      · unfold fillGrid
        rw [hset]
        exact hfill
      · intro y x hy hx
        rw [hlook2 y x hy hx]
        have hiff : (y = t.y.toNat ∧ x = t.x.toNat) ↔ (t.x = (x : Int) ∧ t.y = (y : Int)) := by
          constructor
          · rintro ⟨h1, h2⟩
            exact ⟨by omega, by omega⟩
          · rintro ⟨h1, h2⟩
            exact ⟨by omega, by omega⟩
        cases hms : lastMatch ts x y with
        | some u => simp [lastMatch, hms]
        | none =>
            simp only [lastMatch, hms]
            rw [hlook1 y x hy hx]
            by_cases hm : t.x = (x : Int) ∧ t.y = (y : Int)
            · rw [if_pos (hiff.2 hm), if_pos hm]
            · rw [if_neg (fun hc => hm (hiff.1 hc)), if_neg hm]

theorem triple_bounds (l : List Triple) (hnn : ∀ t ∈ l, 0 ≤ t.x ∧ 0 ≤ t.y)
    (t : Triple) (ht : t ∈ l) :
    0 ≤ t.x ∧ t.x < ((maxXN l + 1 : Nat) : Int) ∧
      0 ≤ t.y ∧ t.y < ((maxYN l + 1 : Nat) : Int) := by
  have h1 := hnn t ht
  have hx : t.x.toNat ≤ maxXN l := natMax_le_of_mem (List.mem_map_of_mem _ ht)
  have hy : t.y.toNat ≤ maxYN l := natMax_le_of_mem (List.mem_map_of_mem _ ht)
  omega

theorem colMax_x_eq (l : List Triple) (hne : l ≠ []) (hnn : ∀ t ∈ l, 0 ≤ t.x ∧ 0 ≤ t.y) :
    colMax (l.map (·.x)) = some ((maxXN l : Nat) : Int) := by
  have hmap : (l.map (·.x)).map Int.toNat = l.map (fun t => t.x.toNat) := by
    rw [List.map_map]
    rfl
  rw [colMax_eq_natMax _ (by simpa using hne)
        (fun a ha => by obtain ⟨t, ht, rfl⟩ := List.mem_map.1 ha; exact (hnn t ht).1),
      hmap]
  rfl

theorem colMax_y_eq (l : List Triple) (hne : l ≠ []) (hnn : ∀ t ∈ l, 0 ≤ t.x ∧ 0 ≤ t.y) :
    colMax (l.map (·.y)) = some ((maxYN l : Nat) : Int) := by
  have hmap : (l.map (·.y)).map Int.toNat = l.map (fun t => t.y.toNat) := by
    rw [List.map_map]
    rfl
  rw [colMax_eq_natMax _ (by simpa using hne)
        (fun a ha => by obtain ⟨t, ht, rfl⟩ := List.mem_map.1 ha; exact (hnn t ht).2),
      hmap]
  rfl

theorem specGrid_length (l : List Triple) : (specGrid l).length = maxYN l + 1 := by
  simp [specGrid]

theorem specGrid_row_length (l : List Triple) :
    ∀ row ∈ specGrid l, row.length = maxXN l + 1 := by
  intro row hrow
  obtain ⟨y, _, rfl⟩ := List.mem_map.1 hrow
  simp

theorem specGrid_getD (l : List Triple) (y : Nat) (hy : y < maxYN l + 1) :
    (specGrid l).getD y [] = (List.range (maxXN l + 1)).map (fun x => cellChar l x y) := by
  unfold specGrid
  rw [List.getD_eq_getElem _ _ (by simpa using hy), List.getElem_map, List.getElem_range]

theorem gget_specGrid (l : List Triple) (y x : Nat)
    (hy : y < maxYN l + 1) (hx : x < maxXN l + 1) :
    gget (specGrid l) y x = cellChar l x y := by
  unfold gget
  rw [specGrid_getD l y hy, List.getD_eq_getElem _ _ (by simpa using hx),
      List.getElem_map, List.getElem_range]

theorem grid_eq_of_gget {g h : List (List String)} {R C : Nat}
    (hgl : g.length = R) (hhl : h.length = R)
    (hgr : ∀ row ∈ g, row.length = C) (hhr : ∀ row ∈ h, row.length = C)
    (hcell : ∀ y x, y < R → x < C → gget g y x = gget h y x) : g = h := by
  apply List.ext_getElem (by omega)
  intro y hy1 hy2
  have hyR : y < R := by omega
  have e1 : g.getD y [] = g[y] := List.getD_eq_getElem _ _ hy1
  have e2 : h.getD y [] = h[y] := List.getD_eq_getElem _ _ hy2
  apply List.ext_getElem
  · rw [hgr _ (List.getElem_mem _), hhr _ (List.getElem_mem _)]
  · intro x hx1 hx2
    have hxC : x < C := by rw [hgr _ (List.getElem_mem _)] at hx1; exact hx1
    have hcx := hcell y x hyR hxC
    unfold gget at hcx
    rw [e1, e2] at hcx
    rw [List.getD_eq_getElem _ _ hx1, List.getD_eq_getElem _ _ hx2] at hcx
    exact hcx

theorem renderGrid_eq_spec (l : List Triple) (hne : l ≠ [])
    (hnn : ∀ t ∈ l, 0 ≤ t.x ∧ 0 ≤ t.y) :
    renderGrid l = .ok (specGrid l) := by
  obtain ⟨g1, hf, hlen1, hrow1, hlook⟩ :=
    fillGrid_ok l (mkGrid (maxYN l + 1) (maxXN l + 1)) (maxYN l + 1) (maxXN l + 1)
      (by simp [mkGrid]) (fun row hr => by rw [List.eq_of_mem_replicate hr]; simp)
      (triple_bounds l hnn)
  have hg1 : g1 = specGrid l := by
    apply grid_eq_of_gget hlen1 (specGrid_length l) hrow1 (specGrid_row_length l)
    intro y x hy hx
    rw [hlook y x hy hx, gget_specGrid l y x hy hx, gget_mkGrid _ _ _ _ hy hx]
    rfl
  unfold renderGrid
  rw [colMax_x_eq l hne hnn, colMax_y_eq l hne hnn]
  have htx : (((maxXN l : Nat) : Int) + 1).toNat = maxXN l + 1 := by omega
  have hty : (((maxYN l : Nat) : Int) + 1).toNat = maxYN l + 1 := by omega
  simp only [htx, hty, hf, hg1]

theorem display_grid_eq_spec (l : List Triple) (hne : l ≠ [])
    (hnn : ∀ t ∈ l, 0 ≤ t.x ∧ 0 ≤ t.y) :
    display_grid l = .ok (specLines l) := by
  unfold display_grid
  rw [colMax_y_eq l hne hnn, renderGrid_eq_spec l hne hnn]
  have hty : (((maxYN l : Nat) : Int) + 1).toNat = maxYN l + 1 := by omega
  simp only [hty]
  congr 1
  unfold specLines
  apply List.map_congr_left
  intro y hy
  have hylt : y < maxYN l + 1 := by simpa using List.mem_reverse.1 hy
  rw [specGrid_getD l y hylt]

theorem lastMatch_none (l : List Triple) (x y : Nat)
    (h : ∀ t ∈ l, ¬(t.x = (x : Int) ∧ t.y = (y : Int))) : lastMatch l x y = none := by
  induction l with
  | nil => rfl
  | cons t ts ih =>
      have hts := ih (fun u hu => h u (List.mem_cons_of_mem _ hu))
      simp only [lastMatch, hts]
      rw [if_neg (h t (List.mem_cons_self ..))]

theorem lastMatch_last (l : List Triple) (j : Nat) (u : Triple) (hju : l[j]? = some u)
    (x y : Nat) (hx : u.x = (x : Int)) (hy : u.y = (y : Int))
    (hlast : ∀ k w, j < k → l[k]? = some w → ¬(w.x = (x : Int) ∧ w.y = (y : Int))) :
    lastMatch l x y = some u := by
  induction l generalizing j with
  | nil => simp at hju
  | cons t ts ih =>
      cases j with
      | zero =>
          have ht : t = u := by simpa using hju
          subst ht
          have hnone : lastMatch ts x y = none := by
            apply lastMatch_none
            intro w hw
            obtain ⟨k, hk⟩ := List.mem_iff_getElem?.1 hw
            exact hlast (k + 1) w (Nat.succ_pos _) (by simpa using hk)
          simp only [lastMatch, hnone]
          rw [if_pos ⟨hx, hy⟩]
      | succ j' =>
          have hju' : ts[j']? = some u := by simpa using hju
          have hlast' : ∀ k w, j' < k → ts[k]? = some w →
              ¬(w.x = (x : Int) ∧ w.y = (y : Int)) := by
            intro k w hk hkw
            exact hlast (k + 1) w (by omega) (by simpa using hkw)
          have hres := ih j' hju' hlast'
          simp only [lastMatch, hres]

/-! ### Claim theorems -/

/-- C1: the claim states that an empty Triple list makes the render step
report NoDataError and continue to a clean exit.  The code does not: with a
table whose only row is the header, `get_data` builds an empty DataFrame
(which is not `None`), so `display_grid`'s `is None` guard does not fire,
`.max()` on the empty column yields NaN and `range(max_x + 1)` raises
`TypeError`.  Evaluated here: no message (in particular not
`"No data to display."`) and no grid line is printed, and a Python exception
escapes `display_grid`. -/
theorem c1_empty_triple_list_crashes :
    get_data (some (some [["x", "char", "y"]])) = ([], some []) ∧
    parse_and_display (some (some [["x", "char", "y"]])) = ⟨[], [], some PyError.nanRange⟩ ∧
    display_grid [] = Except.error PyError.nanRange := by decide

/-- C2: the parser skips the first (header) row; every later row with at
least three cells yields the triple whose x is the integer of the trimmed
first cell, whose character is the trimmed second cell and whose y is the
integer of the trimmed third cell; a row whose coordinate cells do not parse
as integers contributes one logged diagnostic and is skipped, parsing
continuing with the remaining rows; the result is the ordered list of all
successfully parsed rows. -/
theorem c2_row_parsing (rows : List (List String)) :
    get_data (some (some rows)) =
      ((rows.drop 1).filterMap rowDiag, some ((rows.drop 1).filterMap specRowTriple)) :=
  get_data_eq rows

/-- C3: for a non-empty Triple list (coordinates non-negative, per the
data model) the renderer takes `max_x`/`max_y` as the maximum observed
coordinates, allocates a `(max_y + 1) × (max_x + 1)` grid all of spaces, and a
coordinate named by no triple still holds a space in the final grid. -/
theorem c3_grid_allocation (l : List Triple) (hne : l ≠ [])
    (hnn : ∀ t ∈ l, 0 ≤ t.x ∧ 0 ≤ t.y) :
    colMax (l.map (·.x)) = some ((maxXN l : Nat) : Int) ∧
    colMax (l.map (·.y)) = some ((maxYN l : Nat) : Int) ∧
    (∀ y x, y < maxYN l + 1 → x < maxXN l + 1 →
      gget (mkGrid (maxYN l + 1) (maxXN l + 1)) y x = " ") ∧
    renderGrid l = Except.ok (specGrid l) ∧
    (specGrid l).length = maxYN l + 1 ∧
    (∀ row ∈ specGrid l, row.length = maxXN l + 1) ∧
    (∀ y x, y < maxYN l + 1 → x < maxXN l + 1 →
      (∀ t ∈ l, ¬(t.x = (x : Int) ∧ t.y = (y : Int))) →
      gget (specGrid l) y x = " ") := by
  refine ⟨colMax_x_eq l hne hnn, colMax_y_eq l hne hnn,
    fun y x hy hx => gget_mkGrid _ _ _ _ hy hx,
    renderGrid_eq_spec l hne hnn, specGrid_length l, specGrid_row_length l, ?_⟩
  intro y x hy hx hnotin
  rw [gget_specGrid l y x hy hx]
  unfold cellChar
  rw [lastMatch_none l x y hnotin]

/-- C3 witness at the list `[(0,0,"A"), (2,1,"B")]`. -/
theorem c3_grid_allocation_witness :
    ((([⟨0, 0, "A"⟩, ⟨2, 1, "B"⟩] : List Triple) ≠ []) ∧
      (∀ t ∈ ([⟨0, 0, "A"⟩, ⟨2, 1, "B"⟩] : List Triple), 0 ≤ t.x ∧ 0 ≤ t.y)) ∧
    (colMax (([⟨0, 0, "A"⟩, ⟨2, 1, "B"⟩] : List Triple).map (·.x)) =
        some ((maxXN [⟨0, 0, "A"⟩, ⟨2, 1, "B"⟩] : Nat) : Int) ∧
      colMax (([⟨0, 0, "A"⟩, ⟨2, 1, "B"⟩] : List Triple).map (·.y)) =
        some ((maxYN [⟨0, 0, "A"⟩, ⟨2, 1, "B"⟩] : Nat) : Int) ∧
      (∀ y x, y < maxYN [⟨0, 0, "A"⟩, ⟨2, 1, "B"⟩] + 1 →
        x < maxXN [⟨0, 0, "A"⟩, ⟨2, 1, "B"⟩] + 1 →
        gget (mkGrid (maxYN [⟨0, 0, "A"⟩, ⟨2, 1, "B"⟩] + 1)
          (maxXN [⟨0, 0, "A"⟩, ⟨2, 1, "B"⟩] + 1)) y x = " ") ∧
      renderGrid [⟨0, 0, "A"⟩, ⟨2, 1, "B"⟩] =
        Except.ok (specGrid [⟨0, 0, "A"⟩, ⟨2, 1, "B"⟩]) ∧
      (specGrid [⟨0, 0, "A"⟩, ⟨2, 1, "B"⟩]).length = maxYN [⟨0, 0, "A"⟩, ⟨2, 1, "B"⟩] + 1 ∧
      (∀ row ∈ specGrid [⟨0, 0, "A"⟩, ⟨2, 1, "B"⟩],
        row.length = maxXN [⟨0, 0, "A"⟩, ⟨2, 1, "B"⟩] + 1) ∧
      (∀ y x, y < maxYN [⟨0, 0, "A"⟩, ⟨2, 1, "B"⟩] + 1 →
        x < maxXN [⟨0, 0, "A"⟩, ⟨2, 1, "B"⟩] + 1 →
        (∀ t ∈ ([⟨0, 0, "A"⟩, ⟨2, 1, "B"⟩] : List Triple),
          ¬(t.x = (x : Int) ∧ t.y = (y : Int))) →
        gget (specGrid [⟨0, 0, "A"⟩, ⟨2, 1, "B"⟩]) y x = " ")) :=
  ⟨⟨by decide, by decide⟩, c3_grid_allocation _ (by decide) (by decide)⟩

/-- C4: for a non-empty Triple list (coordinates non-negative) the printed
output is `max_y + 1` lines, `y` descending from `max_y` to `0` (row `y = 0`
last, at the bottom), each line the concatenation of the row's cell
characters in ascending `x`. -/
theorem c4_print_descending (l : List Triple) (hne : l ≠ [])
    (hnn : ∀ t ∈ l, 0 ≤ t.x ∧ 0 ≤ t.y) :
    display_grid l = Except.ok (specLines l) ∧
    (specLines l).length = maxYN l + 1 ∧
    (∀ i, i ≤ maxYN l →
      (specLines l).getD i "" =
        String.join ((List.range (maxXN l + 1)).map
          (fun x => cellChar l x (maxYN l - i)))) := by
  refine ⟨display_grid_eq_spec l hne hnn, by simp [specLines], ?_⟩
  intro i hi
  unfold specLines
  rw [List.getD_eq_getElem _ _ (by simpa using Nat.lt_succ_of_le hi),
      List.getElem_map, List.getElem_reverse, List.getElem_range]
  have hidx : (List.range (maxYN l + 1)).length - 1 - i = maxYN l - i := by
    rw [List.length_range]
    omega
  rw [hidx]

/-- C4 witness: the claim's round-trip example, the triples
`[(0,0,"A"), (1,0,"B"), (0,1,"C")]` print as the line `"C "` then the line
`"AB"`. -/
theorem c4_print_descending_witness :
    ((([⟨0, 0, "A"⟩, ⟨1, 0, "B"⟩, ⟨0, 1, "C"⟩] : List Triple) ≠ []) ∧
      (∀ t ∈ ([⟨0, 0, "A"⟩, ⟨1, 0, "B"⟩, ⟨0, 1, "C"⟩] : List Triple), 0 ≤ t.x ∧ 0 ≤ t.y)) ∧
    display_grid [⟨0, 0, "A"⟩, ⟨1, 0, "B"⟩, ⟨0, 1, "C"⟩] = Except.ok ["C ", "AB"] := by
  have h := c4_print_descending [⟨0, 0, "A"⟩, ⟨1, 0, "B"⟩, ⟨0, 1, "C"⟩] (by decide) (by decide)
  refine ⟨⟨by decide, by decide⟩, ?_⟩
  rw [h.1]
  decide

/-- C5: when a later triple shares the coordinate of an earlier one, the
character at that coordinate in the final grid is the later (in fact the
last) triple's character: last write wins. -/
theorem c5_last_write_wins (l : List Triple) (hne : l ≠ [])
    (hnn : ∀ t ∈ l, 0 ≤ t.x ∧ 0 ≤ t.y)
    (j : Nat) (hj : j < l.length)
    (hdup : ∃ i, i < j ∧ ∃ u, l[i]? = some u ∧
      u.x = (l.get ⟨j, hj⟩).x ∧ u.y = (l.get ⟨j, hj⟩).y)
    (hlast : ∀ k w, j < k → l[k]? = some w →
      ¬(w.x = (l.get ⟨j, hj⟩).x ∧ w.y = (l.get ⟨j, hj⟩).y)) :
    renderGrid l = Except.ok (specGrid l) ∧
    gget (specGrid l) ((l.get ⟨j, hj⟩).y.toNat) ((l.get ⟨j, hj⟩).x.toNat) =
      (l.get ⟨j, hj⟩).char := by
  have humem : l.get ⟨j, hj⟩ ∈ l := l.get_mem _ hj
  have hunn := hnn _ humem
  have hxc : (l.get ⟨j, hj⟩).x = (((l.get ⟨j, hj⟩).x.toNat : Nat) : Int) := by omega
  have hyc : (l.get ⟨j, hj⟩).y = (((l.get ⟨j, hj⟩).y.toNat : Nat) : Int) := by omega
  have hxb : (l.get ⟨j, hj⟩).x.toNat < maxXN l + 1 :=
    Nat.lt_succ_of_le (natMax_le_of_mem (List.mem_map_of_mem _ humem))
  have hyb : (l.get ⟨j, hj⟩).y.toNat < maxYN l + 1 :=
    Nat.lt_succ_of_le (natMax_le_of_mem (List.mem_map_of_mem _ humem))
  have hju : l[j]? = some (l.get ⟨j, hj⟩) := by
    rw [List.getElem?_eq_getElem hj]
    rfl
  have hlast' : ∀ k w, j < k → l[k]? = some w →
      ¬(w.x = (((l.get ⟨j, hj⟩).x.toNat : Nat) : Int) ∧
        w.y = (((l.get ⟨j, hj⟩).y.toNat : Nat) : Int)) := by
    intro k w hk hkw hc
    exact hlast k w hk hkw ⟨by rw [hxc]; exact hc.1, by rw [hyc]; exact hc.2⟩
  refine ⟨renderGrid_eq_spec l hne hnn, ?_⟩
  rw [gget_specGrid l _ _ hyb hxb]
  unfold cellChar
  rw [lastMatch_last l j (l.get ⟨j, hj⟩) hju _ _ hxc hyc hlast']

/-- C5 witness at `[(0,0,"A"), (0,0,"B")]`, where the later triple's `"B"`
ends up at `(0,0)`. -/
theorem c5_last_write_wins_witness :
    ((([⟨0, 0, "A"⟩, ⟨0, 0, "B"⟩] : List Triple) ≠ []) ∧
      (∀ t ∈ ([⟨0, 0, "A"⟩, ⟨0, 0, "B"⟩] : List Triple), 0 ≤ t.x ∧ 0 ≤ t.y) ∧
      (∃ i, i < 1 ∧ ∃ u, ([⟨0, 0, "A"⟩, ⟨0, 0, "B"⟩] : List Triple)[i]? = some u ∧
        u.x = 0 ∧ u.y = 0)) ∧
    renderGrid [⟨0, 0, "A"⟩, ⟨0, 0, "B"⟩] =
      Except.ok (specGrid [⟨0, 0, "A"⟩, ⟨0, 0, "B"⟩]) ∧
    gget (specGrid [⟨0, 0, "A"⟩, ⟨0, 0, "B"⟩]) 0 0 = "B" := by
  have hlast : ∀ k w, 1 < k →
      (([⟨0, 0, "A"⟩, ⟨0, 0, "B"⟩] : List Triple))[k]? = some w →
      ¬(w.x = (([⟨0, 0, "A"⟩, ⟨0, 0, "B"⟩] : List Triple).get ⟨1, by decide⟩).x ∧
        w.y = (([⟨0, 0, "A"⟩, ⟨0, 0, "B"⟩] : List Triple).get ⟨1, by decide⟩).y) := by
    intro k w hk hkw
    rw [List.getElem?_eq_none (by simp; omega)] at hkw
    cases hkw
  have h := c5_last_write_wins [⟨0, 0, "A"⟩, ⟨0, 0, "B"⟩] (by decide) (by decide) 1 (by decide)
    ⟨0, by omega, ⟨0, 0, "A"⟩, by decide, by decide, by decide⟩ hlast
  exact ⟨⟨by decide, by decide, ⟨0, by omega, ⟨0, 0, "A"⟩, by decide, by decide, by decide⟩⟩,
    h.1, h.2⟩

/-- C6 counterexample: the claim says a row whose coordinate cell does not
parse as a non-negative integer is rejected.  Python's `int` accepts signed
numerals, so the data row `["-1", "A", "0"]` is accepted and the parser's
output contains a triple with negative x. -/
theorem c6_counterexample :
    (get_data (some (some [["x", "char", "y"], ["-1", "A", "0"]]))).2 =
      some [⟨-1, 0, "A"⟩] ∧ ((-1 : Int) < 0) := by decide

/-- C6 (amended): every triple in the parser's output comes from a data row
with at least three cells whose x and y cells parse as integers (sign
allowed; non-negativity is not enforced), with the trimmed second cell as its
character. -/
theorem c6_rows_parse_as_integers (rows : List (List String)) (t : Triple)
    (ht : t ∈ ((get_data (some (some rows))).2.getD [])) :
    ∃ r ∈ rows.drop 1, 3 ≤ r.length ∧
      pyInt (pyStrip (r.getD 0 "")) = some t.x ∧
      pyInt (pyStrip (r.getD 2 "")) = some t.y ∧
      pyStrip (r.getD 1 "") = t.char := by
  rw [get_data_eq] at ht
  simp only [Option.getD_some] at ht
  obtain ⟨r, hr, hparse⟩ := List.mem_filterMap.1 ht
  refine ⟨r, hr, ?_⟩
  unfold specRowTriple at hparse
  by_cases h3 : 3 ≤ r.length
  · rw [if_pos h3] at hparse
    cases hx : pyInt (pyStrip (r.getD 0 "")) with
    | none => rw [hx] at hparse; cases hparse
    | some a =>
        cases hy : pyInt (pyStrip (r.getD 2 "")) with
        | none => rw [hx, hy] at hparse; cases hparse
        | some b =>
            rw [hx, hy] at hparse
            obtain rfl := Option.some.inj hparse
            exact ⟨h3, rfl, rfl, rfl⟩
  · rw [if_neg h3] at hparse
    cases hparse

/-- C6 witness at a well-formed table with one data row `["5", "Q", "7"]`. -/
theorem c6_rows_parse_as_integers_witness :
    ((⟨5, 7, "Q"⟩ : Triple) ∈
      ((get_data (some (some [["x", "char", "y"], ["5", "Q", "7"]]))).2.getD [])) ∧
    (∃ r ∈ ([["x", "char", "y"], ["5", "Q", "7"]] : List (List String)).drop 1,
      3 ≤ r.length ∧
      pyInt (pyStrip (r.getD 0 "")) = some (5 : Int) ∧
      pyInt (pyStrip (r.getD 2 "")) = some (7 : Int) ∧
      pyStrip (r.getD 1 "") = "Q") :=
  ⟨by decide, c6_rows_parse_as_integers _ ⟨5, 7, "Q"⟩ (by decide)⟩

/-- C7: for an input that is not a string, or an empty or all-whitespace
string, or a URL whose scheme is not `https` or whose host is not
`docs.google.com`, the setter raises (`TypeError` or `ValueError`) before any
network access: the run of `Main` ends in that uncaught exception uniformly in
the fetch outcome, which is never consulted. -/
theorem c7_invalid_inputs_rejected (v : PyValue)
    (h : match v with
         | .other => True
         | .str s => s = "" ∨ pyIsSpace s = true ∨
             (urlparse s).scheme ≠ "https" ∨ (urlparse s).netloc ≠ "docs.google.com") :
    ∃ e, ∀ f, main_run v f = Except.error e := by
  match v with
  | .other => exact ⟨.typeErr "URL must be a string", fun f => rfl⟩
  | .str s =>
      have hset : ∃ e, url_setter (.str s) = .error e := by
        simp only [url_setter]
        by_cases hsp : pyIsSpace s = true
        · exact ⟨_, by rw [if_pos hsp]⟩
        · rw [if_neg hsp]
          by_cases hurl : (urlparse s).scheme ≠ "https" ∨ (urlparse s).netloc ≠ "docs.google.com"
          · exact ⟨_, by rw [if_pos hurl]⟩
          · exfalso
            push_neg at hurl
            rcases h with rfl | h' | h' | h'
            · have hemp : (urlparse "").scheme = "" := by decide
              rw [hurl.1] at hemp
              exact absurd hemp (by decide)
            · exact hsp h'
            · exact h' hurl.1
            · exact h' hurl.2
      obtain ⟨e, he⟩ := hset
      refine ⟨e, fun f => ?_⟩
      unfold main_run
      rw [he]

/-- C7 witness at the host-mismatch URL `"https://example.com/doc"`. -/
theorem c7_invalid_inputs_rejected_witness :
    ("https://example.com/doc" = "" ∨ pyIsSpace "https://example.com/doc" = true ∨
      (urlparse "https://example.com/doc").scheme ≠ "https" ∨
      (urlparse "https://example.com/doc").netloc ≠ "docs.google.com") ∧
    (∃ e, ∀ f, main_run (.str "https://example.com/doc") f = Except.error e) :=
  ⟨by decide, c7_invalid_inputs_rejected (.str "https://example.com/doc") (by decide)⟩

/-- C8: a fetched markup with no table makes `get_data` report
`"No table found in the document."` and leave the grid unset; the display
step then reports `"No data to display."`; no grid line is printed and no
exception escapes.  (The no-table message appears twice because
`display_grid` re-invokes `get_data` when the grid is still `None`.) -/
theorem c8_no_table_reported :
    get_data (some none) = (["No table found in the document."], none) ∧
    parse_and_display (some none) =
      ⟨["No table found in the document.", "No table found in the document.",
        "No data to display."], [], none⟩ := by decide

/-- C9 counterexample: the claim says every non-success status raises
AccessError, but `raise_for_status` only raises for 400–599.  A 304 response
(not a 2xx success, per the spec's own success criterion) passes
`verify_public_url` and the pipeline proceeds to parsing instead of
aborting. -/
theorem c9_counterexample_status_304 :
    verify_public_url (.response 304 none) = (true, []) ∧
    ¬(200 ≤ 304 ∧ 304 < 300) ∧
    main_run (.str "https://docs.google.com/document/d/e/abc/pub") (.response 304 none) =
      Except.ok ⟨["No table found in the document.", "No table found in the document.",
        "No data to display."], []⟩ := by decide

/-- C9 (amended): for a fetch that raises a request exception or returns a
status in 400–599 (e.g. 404), `verify_public_url` reports the access error
and returns `False`, `Main` aborts with its failed-access messages, and no
grid line is printed. -/
theorem c9_fetch_error_aborts (s : String) (f : FetchOutcome)
    (hu : url_setter (.str s) = Except.ok s) (hf : fetchFails f = true) :
    verify_public_url f = (false, ["Error accessing the URL: <exception>"]) ∧
    main_run (.str s) f =
      Except.ok ⟨["Error accessing the URL: <exception>",
        "Error: Failed to access the URL. Please check the URL and make sure it is public.",
        "This might be due to a private or incorrect URL. Ensure the document is publicly accessible."],
        []⟩ := by
  have hv : verify_public_url f = (false, ["Error accessing the URL: <exception>"]) := by
    cases f with
    | exn => rfl
    | response st t =>
        simp only [fetchFails] at hf
        simp only [verify_public_url]
        rw [if_pos hf]
  refine ⟨hv, ?_⟩
  unfold main_run
  rw [hu, hv]
  rfl

/-- C9 witness at a valid URL and an HTTP 404 response. -/
theorem c9_fetch_error_aborts_witness :
    (url_setter (.str "https://docs.google.com/document/d/e/abc/pub") =
        Except.ok "https://docs.google.com/document/d/e/abc/pub" ∧
      fetchFails (.response 404 none) = true) ∧
    (verify_public_url (.response 404 none) =
        (false, ["Error accessing the URL: <exception>"]) ∧
      main_run (.str "https://docs.google.com/document/d/e/abc/pub") (.response 404 none) =
        Except.ok ⟨["Error accessing the URL: <exception>",
          "Error: Failed to access the URL. Please check the URL and make sure it is public.",
          "This might be due to a private or incorrect URL. Ensure the document is publicly accessible."],
          []⟩) :=
  ⟨⟨by decide, by decide⟩,
    c9_fetch_error_aborts "https://docs.google.com/document/d/e/abc/pub"
      (.response 404 none) (by decide) (by decide)⟩

/-- C10: on the empty string the dedicated emptiness check does not fire
(`"".isspace()` is `false`), yet the setter still raises: the empty string is
rejected by the scheme/host check with the invalid-URL message, not the
cannot-be-empty message. -/
theorem c10_empty_string_path :
    pyIsSpace "" = false ∧
    url_setter (.str "") =
      Except.error (.valueErr "Invalid URL. Please provide a valid Google Doc URL.") ∧
    url_setter (.str "") ≠ Except.error (.valueErr "URL cannot be empty") := by decide

end GridDisplay

namespace GridDisplay

/-! Sanity instances (not claim theorems). -/

example : url_setter (.str "https://docs.google.com/document/d/e/abc/pub") =
    .ok "https://docs.google.com/document/d/e/abc/pub" := by decide

example : url_setter (.str "http://docs.google.com/x") =
    .error (.valueErr "Invalid URL. Please provide a valid Google Doc URL.") := by decide

example : url_setter (.str "   ") = .error (.valueErr "URL cannot be empty") := by decide

example : pyInt "-1" = some (-1) := by decide

example : pyInt " 42 " = some 42 := by decide

example : pyInt "3.5" = none := by decide

example : pyStrip "  a b " = "a b" := by decide

example :
    display_grid [⟨0, 0, "A"⟩, ⟨1, 0, "B"⟩, ⟨0, 1, "C"⟩] = .ok ["C ", "AB"] := by decide

example : display_grid [] = .error .nanRange := by decide

example : display_grid [⟨0, 0, "A"⟩, ⟨0, 0, "B"⟩] = .ok ["B"] := by decide

example :
    get_data (some (some [["x", "char", "y"], [" 1 ", "Z", "2"], ["q", "W", "3"]])) =
      (["Error in parsing coordinates or character data."], some [⟨1, 2, "Z"⟩]) := by decide

end GridDisplay
